import Mathlib

/-!
Verification development for the storage layer of an embedded device:
a serial NOR-flash command driver (`IS25LP080D_driver.c`) and a file-handle
pool with packed attribute records (`littlefs.c` / `littlefs.h`).

The C sources are shallowly embedded: machine integers become `Nat` with
explicit masks and moduli where overflow or bit extraction matters, the
external SPI transport, software timer and diagnostic services become an
explicit service record over an abstract state, and the stateful pool
becomes explicit state passing over a list of records.
-/

namespace LittleFs

/-! ### Constants from `littlefs.h` -/

def CP23LFS_FILES_MAX : Nat := 8
def CP23LFS_ATTR_NUM : Nat := 7
def CP23LFS_DATE_LEN : Nat := 11
def CP23LFS_TIME_LEN : Nat := 9
def CP23LFS_OWNER_LEN : Nat := 32
def CP23LFS_COMPANY_LEN : Nat := 32

/-- `CP23LFS_CACHE_SIZE` is set in an external configuration header that is
not part of these sources; no property below depends on its value. -/
def CP23LFS_CACHE_SIZE : Nat := 16

/-! ### Authorization decode helpers from `littlefs.h`

`LfsOwnerGroup(x) = (x) & 0x03`, `LfsUserAuth(x) = (x) & 0x03`,
`LfsMNFAuth(x) = ((x) >> 2) & 0x03`, `LfsBPAuth(x) = ((x) >> 4) & 0x03`,
`LfsSysAuth(x) = ((x) >> 6) & 0x03`. -/

def LfsOwnerGroup (x : Nat) : Nat := x &&& 0x03

def LfsUserAuth (x : Nat) : Nat := x &&& 0x03

def LfsMNFAuth (x : Nat) : Nat := (x >>> 2) &&& 0x03

def LfsBPAuth (x : Nat) : Nat := (x >>> 4) &&& 0x03

def LfsSysAuth (x : Nat) : Nat := (x >>> 6) &&& 0x03

/-! ### The file record, `cp23lfs_fileStructure_t`

One entry of `struct lfs_attr`: the `buffer` pointer of the C structure is
modelled as the byte offset of the attribute's field from the record base
(the C code stores `(char *)record + parOffset[cnt]`). -/

structure LfsAttrEntry where
  type : Nat
  buffer : Nat
  size : Nat
deriving DecidableEq, Repr

/-- `struct lfs_file_config`: `attrs` (a pointer to `descr[0]`) and `buffer`
(a pointer to `system.buffer`) are modelled as booleans recording whether the
pointer has been set to that target; `attr_count` is kept as a number. -/
structure LfsFileCfg where
  attrsSet : Bool
  attrCount : Nat
  bufferSet : Bool
deriving DecidableEq, Repr

/-- The `system` sub-record of `cp23lfs_fileStructure_t`. The underlying
`lfs_file_t` object is opaque to this module and abstracted as a `Nat`. -/
structure CP23System where
  allocated : Bool
  buffer : List Nat
  descr : List LfsAttrEntry
  fileCfg : LfsFileCfg
  file : Nat
deriving DecidableEq, Repr

structure CP23FileStructure where
  dId : Nat
  date : List Nat
  time : List Nat
  flags : Nat
  authorization : Nat
  owner : List Nat
  company : List Nat
  size : Nat
  system : CP23System
deriving DecidableEq, Repr

/-- A statically zero-initialized record, the state of every slot of the
static array `cp23lsf_file[CP23LFS_FILES_MAX]` at process start. -/
def zeroRecord : CP23FileStructure where
  dId := 0
  date := List.replicate CP23LFS_DATE_LEN 0
  time := List.replicate CP23LFS_TIME_LEN 0
  flags := 0
  authorization := 0
  owner := List.replicate CP23LFS_OWNER_LEN 0
  company := List.replicate CP23LFS_COMPANY_LEN 0
  size := 0
  system :=
    { allocated := false
      buffer := List.replicate CP23LFS_CACHE_SIZE 0
      descr := List.replicate CP23LFS_ATTR_NUM ⟨0, 0, 0⟩
      fileCfg := ⟨false, 0, false⟩
      file := 0 }

instance : Inhabited CP23FileStructure := ⟨zeroRecord⟩

/-- The pool at process start: `CP23LFS_FILES_MAX` zero-initialized slots. -/
def initialPool : List CP23FileStructure := List.replicate CP23LFS_FILES_MAX zeroRecord

/-! ### Byte-level model of the clearing loops of `CP23_GetFileStructure`

The C code clears the acquired record with
`for (cnt = 0; cnt < sizeof(t)/sizeof(uint32_t); cnt++) ((uint32_t*)p)[cnt] = 0;`
followed by
`for (cnt = 0; cnt < sizeof(t)%sizeof(uint32_t); cnt++) ((uint8_t*)p)[cnt] = 0;`.
A record is modelled as a map from byte offsets to byte values; the first
loop zeroes the four bytes of word `cnt`, the second zeroes single bytes
counted from the base of the record. -/

def zeroWordAt (rec : Nat → Nat) (cnt : Nat) : Nat → Nat :=
  fun i => if 4 * cnt ≤ i ∧ i < 4 * cnt + 4 then 0 else rec i

def zeroByteAt (rec : Nat → Nat) (cnt : Nat) : Nat → Nat :=
  fun i => if i = cnt then 0 else rec i

/-- Both clearing loops, for a record of `n` bytes. -/
def clearFileBytes (rec : Nat → Nat) (n : Nat) : Nat → Nat :=
  (List.range (n % 4)).foldl zeroByteAt ((List.range (n / 4)).foldl zeroWordAt rec)

/-! ### Structural model of acquire and release

Offsets and sizes of the seven attribute fields inside
`cp23lfs_fileStructure_t`, as the compiler lays the structure out on the
32-bit target (natural alignment: `dId` at 0, then the byte arrays and byte
fields packed back to back): these are the values of the static tables
`parOffset` and `parSize` of `CP23_GetFileStructure`. -/

def parOffset : List Nat := [0, 2, 13, 22, 23, 24, 56]

def parSize : List Nat :=
  [2, CP23LFS_DATE_LEN, CP23LFS_TIME_LEN, 1, 1, CP23LFS_OWNER_LEN, CP23LFS_COMPANY_LEN]

/-- Index of the first free slot, as found by the scan loop
`for (cnt = 0; cnt < CP23LFS_FILES_MAX; cnt++) if (!allocated) ...`. -/
def findFreeIdx : List CP23FileStructure → Option Nat
  | [] => none
  | r :: rs =>
      if r.system.allocated = false then some 0
      else (findFreeIdx rs).map (· + 1)

/-- `cp23lsf_file[cnt].system.allocated = true;` -/
def markAllocated (r : CP23FileStructure) : CP23FileStructure :=
  { r with system := { r.system with allocated := true } }

/-- Effect of the two clearing loops on the record: every byte of the whole
structure is zeroed.  Because the structure contains `uint32_t` members its
size is a multiple of 4, so the word-wise loop covers the full structure —
including the `system.allocated` flag, which is therefore reset to `false`
here (see the byte-level model `clearFileBytes`). -/
def clearedRecord (r : CP23FileStructure) : CP23FileStructure where
  dId := 0
  date := List.replicate CP23LFS_DATE_LEN 0
  time := List.replicate CP23LFS_TIME_LEN 0
  flags := 0
  authorization := 0
  owner := List.replicate CP23LFS_OWNER_LEN 0
  company := List.replicate CP23LFS_COMPANY_LEN 0
  size := 0
  system :=
    { allocated := false
      buffer := List.replicate r.system.buffer.length 0
      descr := List.replicate CP23LFS_ATTR_NUM ⟨0, 0, 0⟩
      fileCfg := ⟨false, 0, false⟩
      file := 0 }

/-- The descriptor-table and file-configuration initialization:
`descr[cnt] = { cnt, (char*)record + parOffset[cnt], parSize[cnt] }` for the
seven attributes, then `fileCfg.attrs = &descr[0]`,
`fileCfg.attr_count = CP23LFS_ATTR_NUM`, `fileCfg.buffer = system.buffer`. -/
def initAttributes (r : CP23FileStructure) : CP23FileStructure :=
  { r with system :=
      { r.system with
          descr := (List.range CP23LFS_ATTR_NUM).map
            (fun cnt => ⟨cnt, parOffset.getD cnt 0, parSize.getD cnt 0⟩)
          fileCfg := ⟨true, CP23LFS_ATTR_NUM, true⟩ } }

/-- The body executed on the acquired slot, in the order of the C code:
mark allocated, clear the whole record, initialize descriptors and file
configuration. -/
def acquiredRecord (r : CP23FileStructure) : CP23FileStructure :=
  initAttributes (clearedRecord (markAllocated r))

/-- `CP23_GetFileStructure`: scan for the first free slot; when none is
found return `NULL` (here `none`) and leave the pool unchanged; otherwise
return the slot index and the updated pool. -/
def CP23_GetFileStructure (pool : List CP23FileStructure) :
    Option Nat × List CP23FileStructure :=
  match findFreeIdx pool with
  | none => (none, pool)
  | some i => (some i, pool.set i (acquiredRecord (pool.getD i default)))

/-- `CP23_ReleaseFileStructure`: clear the allocated flag of the slot the
handle refers to; nothing else is touched. -/
def CP23_ReleaseFileStructure (pool : List CP23FileStructure) (i : Nat) :
    List CP23FileStructure :=
  pool.set i
    { pool.getD i default with
        system := { (pool.getD i default).system with allocated := false } }

end LittleFs

namespace IS25LP080D

/-! ### Constants from `IS25LP080D_driver.c` -/

def CMD_READ : Nat := 0x03
def CMD_WRITE_ENABLE : Nat := 0x06
def CMD_PAGE_PROGRAM : Nat := 0x02
def CMD_SECTOR_ERASE : Nat := 0x20
def CMD_BLOCK_ERASE : Nat := 0xD8
def CMD_READ_STATUS : Nat := 0x05
def CMD_WRITE_DISABLE : Nat := 0x04

def IS25LP080D_ERROR : Int := -5
def IS25LP080D_BUSY_TIMEOUT_MSEC : Nat := 2000

/-- Event code `RTT_EC_IS25LP080D_TIMEOUT`; its numeric value lives in an
external diagnostics header and is irrelevant to the properties below. -/
def RTT_EC_IS25LP080D_TIMEOUT : Nat := 0

/-- Event code `EC_IS25LP080D_TIMEOUT`; its numeric value lives in an
external error-manager header and is irrelevant to the properties below. -/
def EC_IS25LP080D_TIMEOUT : Nat := 0

/-- Modelled from the spec: the byte extraction macros of `split32_t`
(`utilities.h` is not among the sources).  Per the specification the address
is framed as its 3 low bytes, most-significant byte first. -/
def splitB2 (addr : Nat) : Nat := (addr >>> 16) % 256

def splitB1 (addr : Nat) : Nat := (addr >>> 8) % 256

def splitB0 (addr : Nat) : Nat := addr % 256

/-- `uint8_t cmd[4] = {opcode, b[SPLIT_T2], b[SPLIT_T1], b[SPLIT_T0]};` -/
def cmdFrame (opcode addr : Nat) : List Nat :=
  [opcode, splitB2 addr, splitB1 addr, splitB0 addr]

/-! ### The external services used by the driver

`SPI_CS_Enable` / `SPI_CS_Disable`, `SPI_Transmit` / `SPI_Receive`,
`LoadSWTimer` / `SWTimerTimeout`, `RTT_Printf` and `ManageEventError` are
collaborators outside this subsystem; the driver is embedded over an
abstract record of them, acting on an abstract state `σ`.  `transmit`
reports whether transmission succeeded; `receive` reports either the bytes
received or failure. -/

structure Services (σ : Type) where
  csEnable : σ → σ
  csDisable : σ → σ
  transmit : σ → List Nat → σ × Bool
  receive : σ → Nat → σ × Option (List Nat)
  loadSWTimer : σ → σ
  swTimerTimeout : σ → σ × Bool
  rttPrintf : σ → Nat → Nat → σ
  manageEventError : σ → Nat → Bool → Nat → σ

variable {σ : Type}

/-- Body of the `do { ... } while (status & 0x01);` loop of
`IS25LP080D_WaitWhileBusy`.  `fuel` bounds the number of iterations the
model unfolds; `none` means the bound was reached before the loop exited
(the C loop itself exits only through the timeout or an SPI result). -/
def waitLoop (S : Services σ) (memOpcode : Nat) : Nat → σ → Option (σ × Int)
  | 0, _ => none
  | fuel + 1, s =>
      let p := S.swTimerTimeout s
      if p.2 then
        let s1 := S.rttPrintf p.1 RTT_EC_IS25LP080D_TIMEOUT memOpcode
        let s2 := S.manageEventError s1 EC_IS25LP080D_TIMEOUT true memOpcode
        some (s2, IS25LP080D_ERROR)
      else
        let s1 := S.csEnable p.1
        let q := S.transmit s1 [CMD_READ_STATUS]
        if q.2 = false then some (S.csDisable q.1, IS25LP080D_ERROR)
        else
          let r := S.receive q.1 1
          match r.2 with
          | none => some (S.csDisable r.1, IS25LP080D_ERROR)
          | some statusBytes =>
              let s2 := S.csDisable r.1
              if (statusBytes.headD 0) &&& 0x01 ≠ 0 then
                waitLoop S memOpcode fuel s2
              else
                some (s2, 0)

/-- `IS25LP080D_WaitWhileBusy`: load the software timer, then poll the
status register until the write-in-progress bit clears or the timeout
elapses. -/
def IS25LP080D_WaitWhileBusy (S : Services σ) (memOpcode fuel : Nat) (s : σ) :
    Option (σ × Int) :=
  waitLoop S memOpcode fuel (S.loadSWTimer s)

/-- `IS25LP080D_Read`: frame and transmit the read command, then receive
`size` bytes.  The received bytes model the contents written through the
`buffer` out-parameter; on failure the buffer content is unspecified and
modelled as `[]`. -/
def IS25LP080D_Read (S : Services σ) (addr size : Nat) (s : σ) :
    σ × Int × List Nat :=
  let cmd := cmdFrame CMD_READ addr
  let s1 := S.csEnable s
  let p := S.transmit s1 cmd
  if p.2 = false then (S.csDisable p.1, IS25LP080D_ERROR, [])
  else
    let q := S.receive p.1 size
    match q.2 with
    | none => (S.csDisable q.1, IS25LP080D_ERROR, [])
    | some bytes => (S.csDisable q.1, 0, bytes)

/-- `IS25LP080D_Program`: write-enable in its own chip-select window, then
the program command followed by the payload in a second window, then the
busy wait with the program opcode.  The C `size` argument is the length of
the modelled payload list. -/
def IS25LP080D_Program (S : Services σ) (addr : Nat) (buffer : List Nat)
    (fuel : Nat) (s : σ) : Option (σ × Int) :=
  let cmd := cmdFrame CMD_PAGE_PROGRAM addr
  let s1 := S.csEnable s
  let p := S.transmit s1 [CMD_WRITE_ENABLE]
  if p.2 = false then some (S.csDisable p.1, IS25LP080D_ERROR)
  else
    let s2 := S.csDisable p.1
    let s3 := S.csEnable s2
    let q := S.transmit s3 cmd
    if q.2 = false then some (S.csDisable q.1, IS25LP080D_ERROR)
    else
      let r := S.transmit q.1 buffer
      if r.2 = false then some (S.csDisable r.1, IS25LP080D_ERROR)
      else
        let s4 := S.csDisable r.1
        IS25LP080D_WaitWhileBusy S CMD_PAGE_PROGRAM fuel s4

/-- The `if (size == 4096) ... else if (size == 65536) ... else return` size
dispatch of `IS25LP080D_Erase`. -/
def eraseOpcode (size : Nat) : Option Nat :=
  if size = 4096 then some CMD_SECTOR_ERASE
  else if size = 65536 then some CMD_BLOCK_ERASE
  else none

/-- `IS25LP080D_Erase`: reject unsupported sizes before any bus activity;
otherwise write-enable, transmit the erase command, and busy-wait with the
chosen opcode. -/
def IS25LP080D_Erase (S : Services σ) (addr size fuel : Nat) (s : σ) :
    Option (σ × Int) :=
  match eraseOpcode size with
  | none => some (s, IS25LP080D_ERROR)
  | some opcode =>
      let cmd := cmdFrame opcode addr
      let s1 := S.csEnable s
      let p := S.transmit s1 [CMD_WRITE_ENABLE]
      if p.2 = false then some (S.csDisable p.1, IS25LP080D_ERROR)
      else
        let s2 := S.csDisable p.1
        let s3 := S.csEnable s2
        let q := S.transmit s3 cmd
        if q.2 = false then some (S.csDisable q.1, IS25LP080D_ERROR)
        else
          let s4 := S.csDisable q.1
          IS25LP080D_WaitWhileBusy S opcode fuel s4

/-- `IS25LP080D_Sync`: no action, success. -/
def IS25LP080D_Sync (s : σ) : σ × Int := (s, 0)

/-! ### Trace-recording instantiation

A stub transport that records every service call and answers transmit,
receive and timer queries from an oracle indexed by call counts. -/

inductive SpiEvent where
  | csEnable : SpiEvent
  | csDisable : SpiEvent
  | transmit : List Nat → SpiEvent
  | receive : Nat → SpiEvent
  | loadTimer : SpiEvent
  | rtt : Nat → Nat → SpiEvent
  | mee : Nat → Bool → Nat → SpiEvent
deriving DecidableEq, Repr

structure Oracle where
  txOk : Nat → Bool
  rxVal : Nat → Option (List Nat)
  timerTO : Nat → Bool

structure TSt where
  txN : Nat
  rxN : Nat
  tmN : Nat
  trace : List SpiEvent
deriving DecidableEq, Repr

def tst0 : TSt := ⟨0, 0, 0, []⟩

def traceServices (O : Oracle) : Services TSt where
  csEnable s := { s with trace := s.trace ++ [.csEnable] }
  csDisable s := { s with trace := s.trace ++ [.csDisable] }
  transmit s bs :=
    ({ s with txN := s.txN + 1, trace := s.trace ++ [.transmit bs] }, O.txOk s.txN)
  receive s n :=
    ({ s with rxN := s.rxN + 1, trace := s.trace ++ [.receive n] }, O.rxVal s.rxN)
  loadSWTimer s := { s with trace := s.trace ++ [.loadTimer] }
  swTimerTimeout s := ({ s with tmN := s.tmN + 1 }, O.timerTO s.tmN)
  rttPrintf s ec op := { s with trace := s.trace ++ [.rtt ec op] }
  manageEventError s ec nf op := { s with trace := s.trace ++ [.mee ec nf op] }

/-- Chip-select discipline over a trace: starting deselected, every
`csEnable` happens while deselected, every `csDisable` while selected, and
`some b` reports the final select state (`none` on a violation). -/
def csRun : Bool → List SpiEvent → Option Bool
  | sel, [] => some sel
  | sel, .csEnable :: es => if sel then none else csRun true es
  | sel, .csDisable :: es => if sel then csRun false es else none
  | sel, _ :: es => csRun sel es

/-- A trace in which each chip-select assertion is matched by exactly one
release, with no nesting, ending deselected. -/
def csBalanced (t : List SpiEvent) : Prop := csRun false t = some false

instance (t : List SpiEvent) : Decidable (csBalanced t) := by
  unfold csBalanced; infer_instance

/-- The diagnostic hooks (`RTT_Printf` and `ManageEventError` calls) of a
trace. -/
def isHook : SpiEvent → Bool
  | .rtt _ _ => true
  | .mee _ _ _ => true
  | _ => false

/-! ### Concrete oracles used as stubs in the theorems below -/

/-- A transport stub on which every call succeeds, every status read reports
ready, and the timer never reports a timeout. -/
def allOk : Oracle := ⟨fun _ => true, fun _ => some [0], fun _ => false⟩

/-- A transport stub whose device reports ready on every status read but
whose timer already reports the timeout elapsed at the first check. -/
def readyButTimedOut : Oracle := ⟨fun _ => true, fun _ => some [0], fun _ => true⟩

/-- A transport stub whose device always reports busy and whose timer
reports the timeout elapsed from the fourth check on. -/
def alwaysBusy : Oracle := ⟨fun _ => true, fun _ => some [1], fun n => decide (3 ≤ n)⟩

/-! ### Flash-device instantiation

A model of the flash part answering the driver's SPI protocol: within one
chip-select window the device accumulates the transmitted bytes; `receive`
interprets them as a read or read-status command; releasing chip-select
commits a write-enable or page-program command.  The transport never fails,
the device is never busy, and programming writes the payload directly
(the model in which no erase boundary is crossed incorrectly). -/

def readBytes (mem : Nat → Nat) (a n : Nat) : List Nat :=
  (List.range n).map (fun i => mem (a + i))

def writeBytes (mem : Nat → Nat) (a : Nat) (bs : List Nat) : Nat → Nat :=
  fun i => if a ≤ i ∧ i < a + bs.length then bs.getD (i - a) 0 else mem i

/-- Decode of the 3-byte big-endian address the driver frames. -/
def addrOf (a2 a1 a0 : Nat) : Nat := a2 * 65536 + a1 * 256 + a0

structure FlashDev where
  mem : Nat → Nat
  rxBuf : List Nat
  wren : Bool

def devReceive (d : FlashDev) (n : Nat) : FlashDev × Option (List Nat) :=
  match d.rxBuf with
  | [w] =>
      if w = CMD_READ_STATUS then (d, some [0])
      else (d, some (List.replicate n 0))
  | [op, a2, a1, a0] =>
      if op = CMD_READ then (d, some (readBytes d.mem (addrOf a2 a1 a0) n))
      else (d, some (List.replicate n 0))
  | _ => (d, some (List.replicate n 0))

def devCommit (d : FlashDev) : FlashDev :=
  match d.rxBuf with
  | [w] =>
      if w = CMD_WRITE_ENABLE then { d with wren := true, rxBuf := [] }
      else { d with rxBuf := [] }
  | op :: a2 :: a1 :: a0 :: payload =>
      if op = CMD_PAGE_PROGRAM then
        if d.wren then
          { mem := writeBytes d.mem (addrOf a2 a1 a0) payload
            rxBuf := []
            wren := false }
        else { d with rxBuf := [] }
      else { d with rxBuf := [] }
  | _ => { d with rxBuf := [] }

def devServices : Services FlashDev where
  csEnable d := { d with rxBuf := [] }
  csDisable d := devCommit d
  transmit d bs := ({ d with rxBuf := d.rxBuf ++ bs }, true)
  receive d n := devReceive d n
  loadSWTimer d := d
  swTimerTimeout d := (d, false)
  rttPrintf d _ _ := d
  manageEventError d _ _ _ := d

/-! ### Helper lemmas for the trace instantiation -/

lemma ts_csEnable (O : Oracle) (s : TSt) :
    (traceServices O).csEnable s = { s with trace := s.trace ++ [.csEnable] } := rfl

lemma ts_csDisable (O : Oracle) (s : TSt) :
    (traceServices O).csDisable s = { s with trace := s.trace ++ [.csDisable] } := rfl

lemma ts_transmit (O : Oracle) (s : TSt) (bs : List Nat) :
    (traceServices O).transmit s bs =
      ({ s with txN := s.txN + 1, trace := s.trace ++ [.transmit bs] }, O.txOk s.txN) := rfl

lemma ts_receive (O : Oracle) (s : TSt) (n : Nat) :
    (traceServices O).receive s n =
      ({ s with rxN := s.rxN + 1, trace := s.trace ++ [.receive n] }, O.rxVal s.rxN) := rfl

lemma ts_loadSWTimer (O : Oracle) (s : TSt) :
    (traceServices O).loadSWTimer s = { s with trace := s.trace ++ [.loadTimer] } := rfl

lemma ts_swTimerTimeout (O : Oracle) (s : TSt) :
    (traceServices O).swTimerTimeout s =
      ({ s with tmN := s.tmN + 1 }, O.timerTO s.tmN) := rfl

lemma ts_rttPrintf (O : Oracle) (s : TSt) (ec op : Nat) :
    (traceServices O).rttPrintf s ec op = { s with trace := s.trace ++ [.rtt ec op] } := rfl

lemma ts_manageEventError (O : Oracle) (s : TSt) (ec : Nat) (nf : Bool) (op : Nat) :
    (traceServices O).manageEventError s ec nf op =
      { s with trace := s.trace ++ [.mee ec nf op] } := rfl

lemma csRun_append (t1 t2 : List SpiEvent) (b : Bool) :
    csRun b (t1 ++ t2) = (csRun b t1).bind (fun b2 => csRun b2 t2) := by
  induction t1 generalizing b with
  | nil => simp [csRun]
  | cons e es ih => cases e <;> cases b <;> simp [csRun, ih]

/-- One combined induction over the busy-wait loop: the final trace extends
the initial one by a chip-select-balanced block of events, and the
diagnostic hooks of that block are either absent (with a success or
transport-error result) or exactly the timeout pair carrying the operation's
opcode (with the error result). -/
lemma waitLoop_trace (O : Oracle) (op : Nat) :
    ∀ (fuel : Nat) (s s' : TSt) (r : Int),
      waitLoop (traceServices O) op fuel s = some (s', r) →
      ∃ t, s'.trace = s.trace ++ t ∧ csRun false t = some false ∧
        ((t.filter isHook = [] ∧ (r = 0 ∨ r = IS25LP080D_ERROR)) ∨
         (t.filter isHook = [.rtt RTT_EC_IS25LP080D_TIMEOUT op,
                             .mee EC_IS25LP080D_TIMEOUT true op] ∧
          r = IS25LP080D_ERROR)) := by
  intro fuel
  induction fuel with
  | zero => intro s s' r h; simp [waitLoop] at h
  | succ fuel ih =>
      intro s s' r h
      unfold waitLoop at h
      simp only [ts_swTimerTimeout, ts_csEnable, ts_csDisable, ts_transmit,
                 ts_receive, ts_rttPrintf, ts_manageEventError] at h
      by_cases hto : O.timerTO s.tmN
      · rw [if_pos hto] at h
        simp only [Option.some.injEq, Prod.mk.injEq] at h
        obtain ⟨h1, h2⟩ := h
        refine ⟨[.rtt RTT_EC_IS25LP080D_TIMEOUT op,
                 .mee EC_IS25LP080D_TIMEOUT true op], ?_, by simp [csRun], ?_⟩
        · rw [← h1]; simp
        · exact Or.inr ⟨by simp [isHook], h2.symm⟩
      · rw [if_neg hto] at h
        by_cases htx : O.txOk s.txN
        · rw [if_neg (by simp [htx] : ¬(O.txOk s.txN = false))] at h
          cases hrx : O.rxVal s.rxN with
          | none =>
              simp only [hrx] at h
              simp only [Option.some.injEq, Prod.mk.injEq] at h
              obtain ⟨h1, h2⟩ := h
              refine ⟨[.csEnable, .transmit [CMD_READ_STATUS], .receive 1,
                       .csDisable], ?_, by simp [csRun], ?_⟩
              · rw [← h1]; simp
              · exact Or.inl ⟨by simp [isHook], Or.inr h2.symm⟩
          | some st =>
              simp only [hrx] at h
              by_cases hbusy : st.headD 0 &&& 0x01 ≠ 0
              · rw [if_pos hbusy] at h
                obtain ⟨t', h1, h2, h3⟩ := ih _ s' r h
                refine ⟨[.csEnable, .transmit [CMD_READ_STATUS], .receive 1,
                         .csDisable] ++ t', ?_, ?_, ?_⟩
                · rw [h1]; simp
                · rw [csRun_append]
                  have : csRun false [SpiEvent.csEnable,
                      .transmit [CMD_READ_STATUS], .receive 1, .csDisable] =
                      some false := by simp [csRun]
                  rw [this]
                  simpa using h2
                · rw [List.filter_append]
                  have : List.filter isHook [SpiEvent.csEnable,
                      .transmit [CMD_READ_STATUS], .receive 1, .csDisable] = [] := by
                    simp [isHook]
                  rw [this, List.nil_append]
                  exact h3
              · rw [if_neg hbusy] at h
                simp only [Option.some.injEq, Prod.mk.injEq] at h
                obtain ⟨h1, h2⟩ := h
                refine ⟨[.csEnable, .transmit [CMD_READ_STATUS], .receive 1,
                         .csDisable], ?_, by simp [csRun], ?_⟩
                · rw [← h1]; simp
                · exact Or.inl ⟨by simp [isHook], Or.inl h2.symm⟩
        · rw [if_pos (by simp [htx] : O.txOk s.txN = false)] at h
          simp only [Option.some.injEq, Prod.mk.injEq] at h
          obtain ⟨h1, h2⟩ := h
          refine ⟨[.csEnable, .transmit [CMD_READ_STATUS], .csDisable], ?_,
                  by simp [csRun], ?_⟩
          · rw [← h1]; simp
          · exact Or.inl ⟨by simp [isHook], Or.inr h2.symm⟩

lemma waitBusy_trace (O : Oracle) (op fuel : Nat) (s s' : TSt) (r : Int)
    (h : IS25LP080D_WaitWhileBusy (traceServices O) op fuel s = some (s', r)) :
    ∃ t, s'.trace = s.trace ++ t ∧ csRun false t = some false ∧
      ((t.filter isHook = [] ∧ (r = 0 ∨ r = IS25LP080D_ERROR)) ∨
       (t.filter isHook = [.rtt RTT_EC_IS25LP080D_TIMEOUT op,
                           .mee EC_IS25LP080D_TIMEOUT true op] ∧
        r = IS25LP080D_ERROR)) := by
  unfold IS25LP080D_WaitWhileBusy at h
  rw [ts_loadSWTimer] at h
  obtain ⟨t', h1, h2, h3⟩ := waitLoop_trace O op fuel _ s' r h
  refine ⟨.loadTimer :: t', ?_, ?_, ?_⟩
  · rw [h1]; simp
  · simpa [csRun] using h2
  · simpa [isHook, List.filter] using h3

lemma read_trace (O : Oracle) (addr size : Nat) (s : TSt) :
    ∃ t, (IS25LP080D_Read (traceServices O) addr size s).1.trace = s.trace ++ t ∧
      csRun false t = some false := by
  unfold IS25LP080D_Read
  simp only [ts_csEnable, ts_transmit, ts_receive, ts_csDisable]
  cases htx : O.txOk s.txN with
  | false =>
      simp only [htx]
      exact ⟨[.csEnable, .transmit (cmdFrame CMD_READ addr), .csDisable],
             by simp, by simp [csRun]⟩
  | true =>
      cases hrx : O.rxVal s.rxN with
      | none =>
          simp only [htx, hrx]
          exact ⟨[.csEnable, .transmit (cmdFrame CMD_READ addr), .receive size,
                  .csDisable], by simp, by simp [csRun]⟩
      | some bytes =>
          simp only [htx, hrx]
          exact ⟨[.csEnable, .transmit (cmdFrame CMD_READ addr), .receive size,
                  .csDisable], by simp, by simp [csRun]⟩

lemma program_trace (O : Oracle) (addr : Nat) (buffer : List Nat) (fuel : Nat)
    (s s' : TSt) (r : Int)
    (h : IS25LP080D_Program (traceServices O) addr buffer fuel s = some (s', r)) :
    ∃ t, s'.trace = s.trace ++ t ∧ csRun false t = some false := by
  unfold IS25LP080D_Program at h
  simp only [ts_csEnable, ts_transmit, ts_csDisable] at h
  by_cases h1 : O.txOk s.txN
  · simp only [h1] at h
    by_cases h2 : O.txOk (s.txN + 1)
    · simp only [h2] at h
      by_cases h3 : O.txOk (s.txN + 1 + 1)
      · simp only [h3] at h
        obtain ⟨t', ht1, ht2, _⟩ := waitBusy_trace O CMD_PAGE_PROGRAM fuel _ s' r h
        refine ⟨[.csEnable, .transmit [CMD_WRITE_ENABLE], .csDisable, .csEnable,
                 .transmit (cmdFrame CMD_PAGE_PROGRAM addr), .transmit buffer,
                 .csDisable] ++ t', ?_, ?_⟩
        · rw [ht1]; simp
        · rw [csRun_append]
          have hpre : csRun false [SpiEvent.csEnable, .transmit [CMD_WRITE_ENABLE],
              .csDisable, .csEnable, .transmit (cmdFrame CMD_PAGE_PROGRAM addr),
              .transmit buffer, .csDisable] = some false := by simp [csRun]
          rw [hpre]
          simpa using ht2
      · replace h3 : O.txOk (s.txN + 1 + 1) = false := by
          revert h3; cases O.txOk (s.txN + 1 + 1) <;> simp
        simp only [h3, if_true, Option.some.injEq, Prod.mk.injEq] at h
        obtain ⟨rfl, -⟩ := h
        refine ⟨[.csEnable, .transmit [CMD_WRITE_ENABLE], .csDisable, .csEnable,
                 .transmit (cmdFrame CMD_PAGE_PROGRAM addr), .transmit buffer,
                 .csDisable], ?_, by simp [csRun]⟩
        simp
    · replace h2 : O.txOk (s.txN + 1) = false := by
        revert h2; cases O.txOk (s.txN + 1) <;> simp
      simp only [h2, if_true, Option.some.injEq, Prod.mk.injEq] at h
      obtain ⟨rfl, -⟩ := h
      refine ⟨[.csEnable, .transmit [CMD_WRITE_ENABLE], .csDisable, .csEnable,
               .transmit (cmdFrame CMD_PAGE_PROGRAM addr), .csDisable], ?_,
              by simp [csRun]⟩
      simp
  · replace h1 : O.txOk s.txN = false := by
      revert h1; cases O.txOk s.txN <;> simp
    simp only [h1, if_true, Option.some.injEq, Prod.mk.injEq] at h
    obtain ⟨rfl, -⟩ := h
    refine ⟨[.csEnable, .transmit [CMD_WRITE_ENABLE], .csDisable], ?_,
            by simp [csRun]⟩
    simp

lemma erase_trace (O : Oracle) (addr size fuel : Nat) (s s' : TSt) (r : Int)
    (h : IS25LP080D_Erase (traceServices O) addr size fuel s = some (s', r)) :
    ∃ t, s'.trace = s.trace ++ t ∧ csRun false t = some false := by
  unfold IS25LP080D_Erase at h
  cases hop : eraseOpcode size with
  | none =>
      simp only [hop, if_true, Option.some.injEq, Prod.mk.injEq] at h
      obtain ⟨rfl, -⟩ := h
      exact ⟨[], by simp, by simp [csRun]⟩
  | some opcode =>
      simp only [hop] at h
      simp only [ts_csEnable, ts_transmit, ts_csDisable] at h
      by_cases h1 : O.txOk s.txN
      · simp only [h1] at h
        by_cases h2 : O.txOk (s.txN + 1)
        · simp only [h2] at h
          obtain ⟨t', ht1, ht2, _⟩ := waitBusy_trace O opcode fuel _ s' r h
          refine ⟨[.csEnable, .transmit [CMD_WRITE_ENABLE], .csDisable, .csEnable,
                   .transmit (cmdFrame opcode addr), .csDisable] ++ t', ?_, ?_⟩
          · rw [ht1]; simp
          · rw [csRun_append]
            have hpre : csRun false [SpiEvent.csEnable, .transmit [CMD_WRITE_ENABLE],
                .csDisable, .csEnable, .transmit (cmdFrame opcode addr),
                .csDisable] = some false := by simp [csRun]
            rw [hpre]
            simpa using ht2
        · replace h2 : O.txOk (s.txN + 1) = false := by
            revert h2; cases O.txOk (s.txN + 1) <;> simp
          simp only [h2, if_true, Option.some.injEq, Prod.mk.injEq] at h
          obtain ⟨rfl, -⟩ := h
          refine ⟨[.csEnable, .transmit [CMD_WRITE_ENABLE], .csDisable, .csEnable,
                   .transmit (cmdFrame opcode addr), .csDisable], ?_,
                  by simp [csRun]⟩
          simp
      · replace h1 : O.txOk s.txN = false := by
          revert h1; cases O.txOk s.txN <;> simp
        simp only [h1, if_true, Option.some.injEq, Prod.mk.injEq] at h
        obtain ⟨rfl, -⟩ := h
        refine ⟨[.csEnable, .transmit [CMD_WRITE_ENABLE], .csDisable], ?_,
                by simp [csRun]⟩
        simp

end IS25LP080D

namespace LittleFs

/-! ### Helper lemmas for the pool model -/

lemma getD_set_self (l : List CP23FileStructure) (i : Nat) (h : i < l.length)
    (a d : CP23FileStructure) : (l.set i a).getD i d = a := by
  simp [List.getD, List.getElem?_set_self', h]

lemma getD_set_ne (l : List CP23FileStructure) (i j : Nat) (h : j ≠ i)
    (a d : CP23FileStructure) : (l.set i a).getD j d = l.getD j d := by
  simp [List.getD, List.getElem?_set_ne (Ne.symm h)]

lemma findFreeIdx_lt :
    ∀ (l : List CP23FileStructure) (i : Nat), findFreeIdx l = some i → i < l.length := by
  intro l
  induction l with
  | nil => intro i h; simp [findFreeIdx] at h
  | cons r rs ih =>
      intro i h
      unfold findFreeIdx at h
      by_cases hr : r.system.allocated = false
      · simp [hr] at h
        simp only [List.length_cons]
        omega
      · simp [hr] at h
        obtain ⟨j, hj, rfl⟩ := h
        have := ih j hj
        simp only [List.length_cons]
        omega

lemma foldl_zeroWordAt_eq_zero (n : Nat) :
    ∀ (rec : Nat → Nat) (i : Nat), i < 4 * n →
      ((List.range n).foldl zeroWordAt rec) i = 0 := by
  induction n with
  | zero => intro rec i h; omega
  | succ n ih =>
      intro rec i h
      rw [List.range_succ, List.foldl_append, List.foldl_cons, List.foldl_nil]
      unfold zeroWordAt
      by_cases hc : 4 * n ≤ i ∧ i < 4 * n + 4
      · simp [hc]
      · have hlt : i < 4 * n := by omega
        simp only [if_neg hc]
        exact ih rec i hlt

lemma clearFileBytes_eq_zero (rec : Nat → Nat) (n : Nat) (h4 : 4 ∣ n) :
    ∀ i, i < n → clearFileBytes rec n i = 0 := by
  intro i hi
  obtain ⟨k, rfl⟩ := h4
  unfold clearFileBytes
  have hm : 4 * k % 4 = 0 := by omega
  have hd : 4 * k / 4 = k := by omega
  rw [hm, hd]
  simp only [List.range_zero, List.foldl_nil]
  exact foldl_zeroWordAt_eq_zero k rec i hi

end LittleFs

namespace IS25LP080D

/-! ### Helper lemmas for the flash-device instantiation -/

lemma addrOf_split (addr : Nat) (h : addr < 2 ^ 24) :
    addrOf (splitB2 addr) (splitB1 addr) (splitB0 addr) = addr := by
  unfold addrOf splitB2 splitB1 splitB0
  have h2 : addr >>> 16 = addr / 65536 := by
    rw [Nat.shiftRight_eq_div_pow]
  have h1 : addr >>> 8 = addr / 256 := by
    rw [Nat.shiftRight_eq_div_pow]
  rw [h2, h1]
  have h24 : addr < 16777216 := by norm_num at h; exact h
  omega

lemma readBytes_writeBytes (mem : Nat → Nat) (a : Nat) (bs : List Nat) :
    readBytes (writeBytes mem a bs) a bs.length = bs := by
  unfold readBytes writeBytes
  apply List.ext_getElem
  · simp
  · intro i h1 h2
    simp only [List.getElem_map, List.getElem_range]
    rw [if_pos (by omega)]
    have hi : a + i - a = i := by omega
    rw [hi, List.getD_eq_getElem bs 0 h2]

lemma program_dev (mem : Nat → Nat) (addr : Nat) (buf : List Nat) :
    IS25LP080D_Program devServices addr buf 1 ⟨mem, [], false⟩ =
      some (⟨writeBytes mem (addrOf (splitB2 addr) (splitB1 addr) (splitB0 addr)) buf,
             [], false⟩, 0) := rfl

lemma read_dev (mem : Nat → Nat) (addr size : Nat) (w : Bool) :
    IS25LP080D_Read devServices addr size ⟨mem, [], w⟩ =
      (⟨mem, [], w⟩, 0,
        readBytes mem (addrOf (splitB2 addr) (splitB1 addr) (splitB0 addr)) size) := rfl

end IS25LP080D

/-! ## Claim theorems -/

section ClaimTheorems

open LittleFs IS25LP080D

/-- Claim C1 states that, starting from a pool in which all 8 slots are
free, 8 successive `acquire()` calls succeed with 8 pairwise distinct slots,
a 9th returns nothing, and every returned slot is in the allocated state.
The code violates this: `CP23_GetFileStructure` sets the slot's allocated
flag and then runs its clearing loops over the *whole* structure — wiping
the flag it just set — and never re-sets it.  Evaluating the model at the
failing input: from the all-free pool the first acquire returns slot 0, the
slot is still in the free state afterwards, and the second acquire returns
slot 0 again instead of a distinct slot. -/
theorem claim_C1_code_bug :
    (CP23_GetFileStructure initialPool).1 = some 0 ∧
    ((CP23_GetFileStructure initialPool).2.getD 0 default).system.allocated = false ∧
    (CP23_GetFileStructure (CP23_GetFileStructure initialPool).2).1 = some 0 :=
  ⟨rfl, rfl, rfl⟩

/-- Claim C2: a successful acquire zeroes every byte of the returned record
(the word-wise loop covers the aligned part and the byte-wise loop the tail
remainder, which is empty because the structure size is a multiple of 4) and
rebuilds the descriptor table so that entry `i` has type `i`, buffer pointer
record base plus the constant offset, and the field's fixed size. -/
theorem claim_C2 :
    (∀ (pool : List CP23FileStructure) (i : Nat),
        (CP23_GetFileStructure pool).1 = some i →
        (((CP23_GetFileStructure pool).2.getD i default).dId = 0 ∧
         ((CP23_GetFileStructure pool).2.getD i default).date =
           List.replicate CP23LFS_DATE_LEN 0 ∧
         ((CP23_GetFileStructure pool).2.getD i default).time =
           List.replicate CP23LFS_TIME_LEN 0 ∧
         ((CP23_GetFileStructure pool).2.getD i default).flags = 0 ∧
         ((CP23_GetFileStructure pool).2.getD i default).authorization = 0 ∧
         ((CP23_GetFileStructure pool).2.getD i default).owner =
           List.replicate CP23LFS_OWNER_LEN 0 ∧
         ((CP23_GetFileStructure pool).2.getD i default).company =
           List.replicate CP23LFS_COMPANY_LEN 0 ∧
         ((CP23_GetFileStructure pool).2.getD i default).size = 0) ∧
        (∀ cnt, cnt < CP23LFS_ATTR_NUM →
          ((CP23_GetFileStructure pool).2.getD i default).system.descr.getD cnt ⟨0, 0, 0⟩ =
            ⟨cnt, parOffset.getD cnt 0, parSize.getD cnt 0⟩)) ∧
    (∀ (rec : Nat → Nat) (n : Nat), 4 ∣ n → ∀ i, i < n → clearFileBytes rec n i = 0) := by
  refine ⟨?_, clearFileBytes_eq_zero⟩
  intro pool i h
  unfold CP23_GetFileStructure at h ⊢
  cases hf : findFreeIdx pool with
  | none => rw [hf] at h; simp at h
  | some j =>
      replace h : j = i := by rw [hf] at h; simpa using h
      subst h
      have hlt := findFreeIdx_lt pool j hf
      simp only [getD_set_self pool j hlt]
      constructor
      · simp [acquiredRecord, initAttributes, clearedRecord, markAllocated]
      · intro cnt hcnt
        simp only [acquiredRecord, initAttributes, clearedRecord, markAllocated]
        norm_num [CP23LFS_ATTR_NUM] at hcnt
        interval_cases cnt <;> rfl

/-- Witness for claim C2: the acquisition hypothesis discharged on the
initial pool, and the clearing loops evaluated on a concrete 8-byte record. -/
theorem claim_C2_witness :
    ((CP23_GetFileStructure initialPool).2.getD 0 default).dId = 0 ∧
    clearFileBytes (fun _ => 7) 8 5 = 0 :=
  ⟨((claim_C2.1 initialPool 0 rfl).1).1,
   claim_C2.2 (fun _ => 7) 8 ⟨2, rfl⟩ 5 (by decide)⟩

/-- Claim C8: the authorization decode helpers applied to `0xF4` yield
USER = 0 (no access), MNF = 1 (read only), BP = 3 (read and write),
SYS = 3 (read and write); in general each helper extracts the 2-bit field
of its group, ordered USER, MNF, BP, SYS from least to most significant
bit pair. -/
theorem claim_C8 :
    (LfsUserAuth 0xF4 = 0 ∧ LfsMNFAuth 0xF4 = 1 ∧
     LfsBPAuth 0xF4 = 3 ∧ LfsSysAuth 0xF4 = 3) ∧
    (∀ x : Nat, LfsUserAuth x = x % 4 ∧ LfsMNFAuth x = x / 4 % 4 ∧
        LfsBPAuth x = x / 16 % 4 ∧ LfsSysAuth x = x / 64 % 4) := by
  refine ⟨by decide, fun x => ?_⟩
  have hm : ∀ y : Nat, y &&& 3 = y % 4 := fun y => by
    have h := Nat.and_pow_two_sub_one_eq_mod y 2
    norm_num at h
    exact h
  have hs : ∀ k y : Nat, y >>> k = y / 2 ^ k := fun k y =>
    Nat.shiftRight_eq_div_pow y k
  refine ⟨?_, ?_, ?_, ?_⟩ <;>
    simp only [LfsUserAuth, LfsMNFAuth, LfsBPAuth, LfsSysAuth, hm, hs] <;>
    norm_num

/-- Claim C10: releasing a valid handle to an allocated slot clears only the
slot's allocated flag; every other component of the record — and every other
slot of the pool — is left unchanged, and the record is not zeroed. -/
theorem claim_C10 (pool : List CP23FileStructure) (i : Nat)
    (hlen : i < pool.length)
    (halloc : (pool.getD i default).system.allocated = true) :
    (((CP23_ReleaseFileStructure pool i).getD i default).system.allocated = false ∧
     ((CP23_ReleaseFileStructure pool i).getD i default).dId =
       (pool.getD i default).dId ∧
     ((CP23_ReleaseFileStructure pool i).getD i default).date =
       (pool.getD i default).date ∧
     ((CP23_ReleaseFileStructure pool i).getD i default).time =
       (pool.getD i default).time ∧
     ((CP23_ReleaseFileStructure pool i).getD i default).flags =
       (pool.getD i default).flags ∧
     ((CP23_ReleaseFileStructure pool i).getD i default).authorization =
       (pool.getD i default).authorization ∧
     ((CP23_ReleaseFileStructure pool i).getD i default).owner =
       (pool.getD i default).owner ∧
     ((CP23_ReleaseFileStructure pool i).getD i default).company =
       (pool.getD i default).company ∧
     ((CP23_ReleaseFileStructure pool i).getD i default).size =
       (pool.getD i default).size ∧
     ((CP23_ReleaseFileStructure pool i).getD i default).system.buffer =
       (pool.getD i default).system.buffer ∧
     ((CP23_ReleaseFileStructure pool i).getD i default).system.descr =
       (pool.getD i default).system.descr ∧
     ((CP23_ReleaseFileStructure pool i).getD i default).system.fileCfg =
       (pool.getD i default).system.fileCfg ∧
     ((CP23_ReleaseFileStructure pool i).getD i default).system.file =
       (pool.getD i default).system.file) ∧
    (∀ j, j ≠ i →
      (CP23_ReleaseFileStructure pool i).getD j default = pool.getD j default) := by
  constructor
  · unfold CP23_ReleaseFileStructure
    rw [getD_set_self pool i hlen]
    simp
  · intro j hj
    unfold CP23_ReleaseFileStructure
    exact getD_set_ne pool i j hj _ default

/-- Witness for claim C10: release evaluated on a one-slot pool holding an
allocated record. -/
theorem claim_C10_witness :
    ((CP23_ReleaseFileStructure [markAllocated zeroRecord] 0).getD 0
        default).system.allocated = false :=
  (claim_C10 [markAllocated zeroRecord] 0 (by decide) (by decide)).1.1

/-- Claim C3: for every address and every size other than 4096 and 65536,
erase returns the unsupported-size error with the transport stub state
untouched (no chip-select, transmit or receive call is recorded); size 4096
selects the sector-erase opcode 0x20 and size 65536 the block-erase opcode
0xD8, which is the opcode byte of the erase command frame transmitted on
the bus. -/
theorem claim_C3 :
    (∀ (size : Nat), size ≠ 4096 → size ≠ 65536 →
        ∀ (O : Oracle) (addr fuel : Nat) (s : TSt),
          IS25LP080D_Erase (traceServices O) addr size fuel s =
            some (s, IS25LP080D_ERROR)) ∧
    eraseOpcode 4096 = some CMD_SECTOR_ERASE ∧
    eraseOpcode 65536 = some CMD_BLOCK_ERASE ∧
    (∀ addr : Nat,
        IS25LP080D_Erase (traceServices allOk) addr 4096 1 tst0 =
          some (⟨3, 1, 1,
            [.csEnable, .transmit [CMD_WRITE_ENABLE], .csDisable,
             .csEnable, .transmit (cmdFrame CMD_SECTOR_ERASE addr), .csDisable,
             .loadTimer, .csEnable, .transmit [CMD_READ_STATUS], .receive 1,
             .csDisable]⟩, 0)) ∧
    (∀ addr : Nat,
        IS25LP080D_Erase (traceServices allOk) addr 65536 1 tst0 =
          some (⟨3, 1, 1,
            [.csEnable, .transmit [CMD_WRITE_ENABLE], .csDisable,
             .csEnable, .transmit (cmdFrame CMD_BLOCK_ERASE addr), .csDisable,
             .loadTimer, .csEnable, .transmit [CMD_READ_STATUS], .receive 1,
             .csDisable]⟩, 0)) := by
  refine ⟨?_, rfl, rfl, fun addr => rfl, fun addr => rfl⟩
  intro size hs1 hs2 O addr fuel s
  unfold IS25LP080D_Erase eraseOpcode
  rw [if_neg hs1, if_neg hs2]

/-- Witness for claim C3: the unsupported size 5000 rejected with the stub
state unchanged. -/
theorem claim_C3_witness :
    IS25LP080D_Erase (traceServices allOk) 7 5000 3 tst0 =
      some (tst0, IS25LP080D_ERROR) :=
  claim_C3.1 5000 (by decide) (by decide) allOk 7 3 tst0

/-- Claim C4: for read, program, erase and the busy-wait poll, on every exit
path (including transmit and receive failure) the events recorded by the
transport stub form a chip-select-balanced block: every assertion is matched
by exactly one release, with no nesting, and the operation never returns
with the device selected. -/
theorem claim_C4 :
    (∀ (O : Oracle) (addr size : Nat) (s : TSt),
        ∃ t, (IS25LP080D_Read (traceServices O) addr size s).1.trace =
          s.trace ++ t ∧ csBalanced t) ∧
    (∀ (O : Oracle) (addr : Nat) (buffer : List Nat) (fuel : Nat)
        (s sf : TSt) (r : Int),
        IS25LP080D_Program (traceServices O) addr buffer fuel s = some (sf, r) →
        ∃ t, sf.trace = s.trace ++ t ∧ csBalanced t) ∧
    (∀ (O : Oracle) (addr size fuel : Nat) (s sf : TSt) (r : Int),
        IS25LP080D_Erase (traceServices O) addr size fuel s = some (sf, r) →
        ∃ t, sf.trace = s.trace ++ t ∧ csBalanced t) ∧
    (∀ (O : Oracle) (op fuel : Nat) (s sf : TSt) (r : Int),
        IS25LP080D_WaitWhileBusy (traceServices O) op fuel s = some (sf, r) →
        ∃ t, sf.trace = s.trace ++ t ∧ csBalanced t) := by
  refine ⟨?_, ?_, ?_, ?_⟩
  · intro O addr size s
    obtain ⟨t, h1, h2⟩ := read_trace O addr size s
    exact ⟨t, h1, h2⟩
  · intro O addr buffer fuel s sf r h
    obtain ⟨t, h1, h2⟩ := program_trace O addr buffer fuel s sf r h
    exact ⟨t, h1, h2⟩
  · intro O addr size fuel s sf r h
    obtain ⟨t, h1, h2⟩ := erase_trace O addr size fuel s sf r h
    exact ⟨t, h1, h2⟩
  · intro O op fuel s sf r h
    obtain ⟨t, h1, h2, -⟩ := waitBusy_trace O op fuel s sf r h
    exact ⟨t, h1, h2⟩

/-- Witness for claim C4: the program hypothesis discharged on a concrete
one-byte program with the all-succeeding stub. -/
theorem claim_C4_witness :
    ∃ t, (⟨4, 1, 1,
      [SpiEvent.csEnable, .transmit [6], .csDisable, .csEnable,
       .transmit [2, 0, 0, 0], .transmit [1], .csDisable, .loadTimer,
       .csEnable, .transmit [5], .receive 1, .csDisable]⟩ : TSt).trace =
      tst0.trace ++ t ∧ csBalanced t :=
  claim_C4.2.1 allOk 0 [1] 1 tst0 _ 0 rfl

/-- Claim C5 states that each busy-wait iteration first reads the status
byte and consults the timeout only after observing the write-in-progress
bit set, so that a device reporting ready on the very first status read
yields success regardless of the timer.  The code checks the timeout at the
top of each iteration, before any status read: with a stub whose device
reports ready but whose timer has already elapsed at the first check, the
call fails with the timeout error and performs no status read at all. -/
theorem claim_C5_counterexample :
    readyButTimedOut.rxVal 0 = some [0] ∧
    IS25LP080D_WaitWhileBusy (traceServices readyButTimedOut)
        CMD_PAGE_PROGRAM 5 tst0 =
      some (⟨0, 0, 1,
        [.loadTimer, .rtt RTT_EC_IS25LP080D_TIMEOUT CMD_PAGE_PROGRAM,
         .mee EC_IS25LP080D_TIMEOUT true CMD_PAGE_PROGRAM]⟩,
        IS25LP080D_ERROR) ∧
    IS25LP080D_ERROR ≠ (0 : Int) :=
  ⟨rfl, rfl, by decide⟩

/-- Claim C5 as amended: each busy-wait iteration first performs the
elapsed-time check — failing with the timeout error before any status read
when the timeout has already elapsed — and only then transmits the
read-status command and receives one status byte, returning success when
the write-in-progress bit is clear; success on the first status read is
therefore guaranteed only when the first timeout check has not fired. -/
theorem claim_C5 :
    (∀ (O : Oracle) (op fuel : Nat) (s : TSt), O.timerTO s.tmN = true →
        IS25LP080D_WaitWhileBusy (traceServices O) op (fuel + 1) s =
          some ({ s with tmN := s.tmN + 1,
                         trace := s.trace ++ [.loadTimer,
                           .rtt RTT_EC_IS25LP080D_TIMEOUT op,
                           .mee EC_IS25LP080D_TIMEOUT true op] },
                IS25LP080D_ERROR)) ∧
    (∀ (O : Oracle) (op fuel : Nat) (s : TSt) (st : List Nat),
        O.timerTO s.tmN = false → O.txOk s.txN = true →
        O.rxVal s.rxN = some st → st.headD 0 &&& 0x01 = 0 →
        IS25LP080D_WaitWhileBusy (traceServices O) op (fuel + 1) s =
          some ({ s with txN := s.txN + 1, rxN := s.rxN + 1, tmN := s.tmN + 1,
                         trace := s.trace ++ [.loadTimer, .csEnable,
                           .transmit [CMD_READ_STATUS], .receive 1,
                           .csDisable] },
                0)) := by
  constructor
  · intro O op fuel s hto
    unfold IS25LP080D_WaitWhileBusy waitLoop
    simp only [ts_loadSWTimer, ts_swTimerTimeout, ts_rttPrintf,
               ts_manageEventError]
    rw [if_pos hto]
    simp
  · intro O op fuel s st hto htx hrx hclear
    unfold IS25LP080D_WaitWhileBusy waitLoop
    simp only [ts_loadSWTimer, ts_swTimerTimeout, ts_csEnable, ts_transmit,
               ts_receive, ts_csDisable]
    rw [if_neg (by simp [hto])]
    rw [if_neg (by simp [htx])]
    simp only [hrx]
    rw [if_neg (by simp [Nat.and_one_is_mod] at hclear; simpa using hclear)]
    simp

/-- Witness for claim C5: both iteration shapes evaluated on concrete
stubs. -/
theorem claim_C5_witness :
    IS25LP080D_WaitWhileBusy (traceServices readyButTimedOut)
        CMD_SECTOR_ERASE 5 tst0 =
      some (⟨0, 0, 1,
        [.loadTimer, .rtt RTT_EC_IS25LP080D_TIMEOUT CMD_SECTOR_ERASE,
         .mee EC_IS25LP080D_TIMEOUT true CMD_SECTOR_ERASE]⟩,
        IS25LP080D_ERROR) ∧
    IS25LP080D_WaitWhileBusy (traceServices allOk) CMD_SECTOR_ERASE 5 tst0 =
      some (⟨1, 1, 1,
        [.loadTimer, .csEnable, .transmit [CMD_READ_STATUS], .receive 1,
         .csDisable]⟩, 0) :=
  ⟨claim_C5.1 readyButTimedOut CMD_SECTOR_ERASE 4 tst0 rfl,
   claim_C5.2 allOk CMD_SECTOR_ERASE 4 tst0 [0] rfl rfl rfl (by decide)⟩

/-- Claim C6: whenever the busy wait returns, the diagnostic hooks recorded
by the stub are either absent or exactly one diagnostic-record emission and
one error-manager notification, both carrying the operation opcode and the
notification flagged non-fatal, together with the timeout error result; a
success result carries no hook invocation; and on the always-busy stub whose
timer elapses at the fourth check, the hooks fire exactly once each with the
correct opcode and the call fails with the timeout error. -/
theorem claim_C6 :
    (∀ (O : Oracle) (op fuel : Nat) (s sf : TSt) (r : Int),
        IS25LP080D_WaitWhileBusy (traceServices O) op fuel s = some (sf, r) →
        ∃ t, sf.trace = s.trace ++ t ∧
          ((t.filter isHook = [] ∧ (r = 0 ∨ r = IS25LP080D_ERROR)) ∨
           (t.filter isHook = [.rtt RTT_EC_IS25LP080D_TIMEOUT op,
                               .mee EC_IS25LP080D_TIMEOUT true op] ∧
            r = IS25LP080D_ERROR))) ∧
    (∀ (O : Oracle) (op fuel : Nat) (s sf : TSt),
        IS25LP080D_WaitWhileBusy (traceServices O) op fuel s = some (sf, 0) →
        ∃ t, sf.trace = s.trace ++ t ∧ t.filter isHook = []) ∧
    ((IS25LP080D_WaitWhileBusy (traceServices alwaysBusy)
          CMD_SECTOR_ERASE 10 tst0).map
        (fun p => (p.1.trace.filter isHook, p.2)) =
      some ([.rtt RTT_EC_IS25LP080D_TIMEOUT CMD_SECTOR_ERASE,
             .mee EC_IS25LP080D_TIMEOUT true CMD_SECTOR_ERASE],
            IS25LP080D_ERROR)) := by
  refine ⟨?_, ?_, rfl⟩
  · intro O op fuel s sf r h
    obtain ⟨t, h1, -, h3⟩ := waitBusy_trace O op fuel s sf r h
    exact ⟨t, h1, h3⟩
  · intro O op fuel s sf h
    obtain ⟨t, h1, -, h3⟩ := waitBusy_trace O op fuel s sf 0 h
    rcases h3 with ⟨he, -⟩ | ⟨-, habs⟩
    · exact ⟨t, h1, he⟩
    · exact absurd habs (by decide)

/-- Witness for claim C6: the general hook characterization discharged on a
concrete successful poll. -/
theorem claim_C6_witness :
    ∃ t, (⟨1, 1, 1, [SpiEvent.loadTimer, .csEnable, .transmit [5],
        .receive 1, .csDisable]⟩ : TSt).trace = tst0.trace ++ t ∧
      ((t.filter isHook = [] ∧ ((0 : Int) = 0 ∨ (0 : Int) = IS25LP080D_ERROR)) ∨
       (t.filter isHook = [.rtt RTT_EC_IS25LP080D_TIMEOUT CMD_PAGE_PROGRAM,
                           .mee EC_IS25LP080D_TIMEOUT true CMD_PAGE_PROGRAM] ∧
        (0 : Int) = IS25LP080D_ERROR)) :=
  claim_C6.1 allOk CMD_PAGE_PROGRAM 1 tst0 _ 0 rfl

/-- Claim C7: over the flash-device model (no transport failure, no
incorrectly crossed erase boundary), for every address below 2^20 and
payload fitting below 2^20, a successful program followed by a read of the
same range returns exactly the programmed bytes. -/
theorem claim_C7 (mem : Nat → Nat) (addr : Nat) (buf : List Nat)
    (h1 : addr < 2 ^ 20) (h2 : addr + buf.length ≤ 2 ^ 20) :
    ∃ d1 : FlashDev,
      IS25LP080D_Program devServices addr buf 1 ⟨mem, [], false⟩ =
        some (d1, 0) ∧
      IS25LP080D_Read devServices addr buf.length d1 = (d1, 0, buf) := by
  refine ⟨_, program_dev mem addr buf, ?_⟩
  rw [read_dev]
  rw [addrOf_split addr (lt_of_lt_of_le h1 (by norm_num))]
  rw [readBytes_writeBytes]

/-- Witness for claim C7: round trip of a two-byte payload at address 3. -/
theorem claim_C7_witness :
    ∃ d1 : FlashDev,
      IS25LP080D_Program devServices 3 [9, 8] 1 ⟨fun _ => 0, [], false⟩ =
        some (d1, 0) ∧
      IS25LP080D_Read devServices 3 2 d1 = (d1, 0, [9, 8]) :=
  claim_C7 (fun _ => 0) 3 [9, 8] (by norm_num) (by norm_num)

/-- Claim C9: for every opcode and address, the framed addressed command
buffer is exactly the 4 bytes opcode, then the address bytes most
significant first, each masked to 8 bits; the frame is produced by a pure
function of opcode and address (so framing is deterministic and cannot
fail), and the read operation transmits exactly this frame as its first
bus transfer. -/
theorem claim_C9 :
    (∀ (opcode addr : Nat),
        cmdFrame opcode addr =
          [opcode, (addr >>> 16) &&& 0xFF, (addr >>> 8) &&& 0xFF,
           addr &&& 0xFF] ∧
        (cmdFrame opcode addr).length = 4) ∧
    (∀ (O : Oracle) (addr size : Nat) (s : TSt),
        ∃ rest, (IS25LP080D_Read (traceServices O) addr size s).1.trace =
          s.trace ++ SpiEvent.csEnable ::
            SpiEvent.transmit (cmdFrame CMD_READ addr) :: rest) := by
  constructor
  · intro opcode addr
    have hm : ∀ y : Nat, y &&& 255 = y % 256 := fun y => by
      have h := Nat.and_pow_two_sub_one_eq_mod y 8
      norm_num at h
      exact h
    refine ⟨?_, rfl⟩
    unfold cmdFrame splitB2 splitB1 splitB0
    rw [hm, hm, hm]
  · intro O addr size s
    unfold IS25LP080D_Read
    simp only [ts_csEnable, ts_transmit, ts_receive, ts_csDisable]
    cases htx : O.txOk s.txN with
    | false =>
        simp only [htx]
        exact ⟨[.csDisable], by simp⟩
    | true =>
        cases hrx : O.rxVal s.rxN with
        | none =>
            simp only [htx, hrx]
            exact ⟨[.receive size, .csDisable], by simp⟩
        | some bytes =>
            simp only [htx, hrx]
            exact ⟨[.receive size, .csDisable], by simp⟩

end ClaimTheorems
